import Mathlib

/-!
Shallow embedding of the metrics computation core of the
credit-portfolio-analysis repository, and proofs checking the
natural-language specification against it.

Sources embedded:
  * src/part_1_loan_tape_analysis/loan_tape_metrics.py
    (PortfolioMetricsCalculator, YieldMetricsCalculator,
     BusinessMetricsCalculator)
  * src/metrics.py (the legacy PortfolioMetricsCalculator and
    BusinessMetricsCalculator kept in the repository)
  * src/part_2_orders_data_analysis/orders_data_processor.py
    (OrdersDataProcessor)
  * src/part_2_orders_data_analysis/orders_data_analyzer.py
    (OrdersAnalyzer)

Modelling conventions:
  * pandas timestamps are modelled as a pair of an absolute day number
    and a calendar-month index (`Date`); `.dt.to_period('M')` reads the
    month field, timestamp subtraction `.dt.days` subtracts day fields.
    A missing / unparseable timestamp (NaT) is `Option.none`.
  * currency / numeric columns are modelled as rationals (`ℚ`); the
    float values the program manipulates are decimal and all operations
    used are field operations, so `ℚ` is exact for them.
  * a pandas DataFrame is a list of typed records; `groupby(k)` is
    "distinct non-null keys, each with the sublist of rows having that
    key" (pandas drops rows whose group key is NaN/NaT, which is
    modelled by `Option` keys and `filterMap`); column sums are sums
    over the corresponding list of fields.
  * pandas `Series.mode()` returns the most frequent values sorted
    ascending, so `.mode().iloc[0]` is the lexicographically smallest
    most-frequent value; string order is modelled on UTF-8 code points
    (`lexLe`), which is how pandas compares Python strings here.
-/

/-- A calendar timestamp: absolute day number plus calendar-month index.
The two fields are read independently (day arithmetic vs `to_period('M')`)
and no claim relates them, so they are carried as an abstract pair. -/
structure Date where
  day : Int
  month : Int
deriving DecidableEq, Repr

/-- One row of the preprocessed loan tape (one account-period snapshot),
after ingestion has parsed currency columns to numbers and date columns
to timestamps (`none` = NaT, an unparseable or missing date). -/
structure LoanRecord where
  businessGuid : String
  capitalAccountGuid : String
  accountType : String
  accountEndingStatus : String
  snapshotBeginningAt : Option Date
  snapshotEndingAt : Option Date
  accountActivatedAt : Option Date
  accountDailyAveragePrincipalBalance : ℚ
  lineDailyAveragePrincipalBalance : ℚ
  cardDailyAveragePrincipalBalance : ℚ
  lineFeesAccrued : ℚ
  cardNetInterchangeAccrued : ℚ
  cardRewardsAccrued : ℚ
deriving DecidableEq, Repr

/-- Denominator status mask used throughout loan_tape_metrics.py:
`isin(['Current', 'Delinquent', 'Default'])`. -/
def denomStatuses : List String := ["Current", "Delinquent", "Default"]

/-- Numerator status mask used throughout loan_tape_metrics.py:
`isin(['Current', 'Delinquent'])`. -/
def numStatuses : List String := ["Current", "Delinquent"]

/-- `df.loc[mask, col].sum()` for a status mask given as a list of
admissible statuses. -/
def maskedSum (g : List LoanRecord) (mask : List String) (col : LoanRecord → ℚ) : ℚ :=
  ((g.filter (fun r => mask.contains r.accountEndingStatus)).map col).sum

/-- Result dictionary of
`PortfolioMetricsCalculator._calculate_monthly_metrics`
(loan_tape_metrics.py lines 47-101). -/
structure MonthlyMetrics where
  total_accounts : Nat
  current_accounts : Nat
  delinquent_accounts : Nat
  defaulted_accounts : Nat
  charged_off_accounts : Nat
  closed_accounts : Nat
  delinquency_rate : ℚ
  default_rate : ℚ
  charge_off_rate : ℚ
  portfolio_size : ℚ
  total_revenue : ℚ
  gross_yield : ℚ
  net_yield : ℚ
deriving DecidableEq, Repr

/-- Number of rows of `g` whose `accountEndingStatus` equals `s`. -/
def statusCount (g : List LoanRecord) (s : String) : Nat :=
  (g.filter (fun r => r.accountEndingStatus == s)).length

/-- Embedding of `PortfolioMetricsCalculator._calculate_monthly_metrics`
(loan_tape_metrics.py lines 47-101): counts by status, rates guarded by
`total_accounts > 0`, denominator balance over the Current/Delinquent/Default
mask, numerator revenue (line fees + card interchange) over the
Current/Delinquent mask, gross yield `(revenue / balance) * 12` guarded by
`portfolio_size > 0`, net yield `gross - 0.10`. -/
def calculate_monthly_metrics (group : List LoanRecord) : MonthlyMetrics :=
  let total_accounts := group.length
  let delinquent_accounts := statusCount group "Delinquent"
  let defaulted_accounts := statusCount group "Default"
  let charged_off_accounts := statusCount group "ChargedOff"
  let closed_accounts := statusCount group "Closed"
  let current_accounts := statusCount group "Current"
  let delinquency_rate : ℚ := if 0 < total_accounts then (delinquent_accounts : ℚ) / total_accounts else 0
  let default_rate : ℚ := if 0 < total_accounts then (defaulted_accounts : ℚ) / total_accounts else 0
  let charge_off_rate : ℚ := if 0 < total_accounts then (charged_off_accounts : ℚ) / total_accounts else 0
  let portfolio_size := maskedSum group denomStatuses (·.accountDailyAveragePrincipalBalance)
  let total_revenue := maskedSum group numStatuses (·.lineFeesAccrued)
                     + maskedSum group numStatuses (·.cardNetInterchangeAccrued)
  let gross_yield : ℚ := if 0 < portfolio_size then total_revenue / portfolio_size * 12 else 0
  let net_yield : ℚ := gross_yield - 1/10
  { total_accounts := total_accounts
    current_accounts := current_accounts
    delinquent_accounts := delinquent_accounts
    defaulted_accounts := defaulted_accounts
    charged_off_accounts := charged_off_accounts
    closed_accounts := closed_accounts
    delinquency_rate := delinquency_rate
    default_rate := default_rate
    charge_off_rate := charge_off_rate
    portfolio_size := portfolio_size
    total_revenue := total_revenue
    gross_yield := gross_yield
    net_yield := net_yield }

/-- Group key of the monthly grouping:
`data['month'] = data['snapshotEndingAt'].dt.to_period('M')`;
NaT dates give a missing key. -/
def monthKey (r : LoanRecord) : Option Int :=
  r.snapshotEndingAt.map (·.month)

/-- Distinct non-missing month keys of a dataset (pandas `groupby`
drops rows whose key is NaT). -/
def monthKeys (data : List LoanRecord) : List Int :=
  (data.filterMap monthKey).dedup

/-- The rows grouped under month `m` by `data.groupby('month')`. -/
def monthGroup (data : List LoanRecord) (m : Int) : List LoanRecord :=
  data.filter (fun r => monthKey r == some m)

/-- Embedding of `PortfolioMetricsCalculator.calculate_portfolio_metrics`
(loan_tape_metrics.py lines 16-45) without the optional date-range
filter: group by calendar month of `snapshotEndingAt` and compute the
monthly metrics of each group. -/
def calculate_portfolio_metrics (data : List LoanRecord) : List (Int × MonthlyMetrics) :=
  (monthKeys data).map (fun m => (m, calculate_monthly_metrics (monthGroup data m)))

/-- Result dictionary of
`PortfolioMetricsCalculator.calculate_portfolio_wide_rates`
(loan_tape_metrics.py lines 128-162). -/
structure WideRates where
  total_accounts : Nat
  current_accounts : Nat
  delinquent_accounts : Nat
  defaulted_accounts : Nat
  charged_off_accounts : Nat
  closed_accounts : Nat
  delinquency_rate : ℚ
  default_rate : ℚ
  charge_off_rate : ℚ
deriving DecidableEq, Repr

/-- Embedding of `PortfolioMetricsCalculator.calculate_portfolio_wide_rates`
(loan_tape_metrics.py lines 128-162): the same status counting and rate
computation over the full unfiltered record set. -/
def calculate_portfolio_wide_rates (data : List LoanRecord) : WideRates :=
  let total_accounts := data.length
  let delinquent_accounts := statusCount data "Delinquent"
  let defaulted_accounts := statusCount data "Default"
  let charged_off_accounts := statusCount data "ChargedOff"
  let closed_accounts := statusCount data "Closed"
  let current_accounts := statusCount data "Current"
  { total_accounts := total_accounts
    current_accounts := current_accounts
    delinquent_accounts := delinquent_accounts
    defaulted_accounts := defaulted_accounts
    charged_off_accounts := charged_off_accounts
    closed_accounts := closed_accounts
    delinquency_rate := if 0 < total_accounts then (delinquent_accounts : ℚ) / total_accounts else 0
    default_rate := if 0 < total_accounts then (defaulted_accounts : ℚ) / total_accounts else 0
    charge_off_rate := if 0 < total_accounts then (charged_off_accounts : ℚ) / total_accounts else 0 }

/-- `YieldMetricsCalculator._get_filtered_data`
(loan_tape_metrics.py lines 224-232): when `filter_active` is true,
drop all ChargedOff rows before the per-metric status masks. -/
def get_filtered_data (data : List LoanRecord) (filter_active : Bool) : List LoanRecord :=
  if filter_active then
    data.filter (fun r => !(r.accountEndingStatus == "ChargedOff"))
  else
    data

/-- Per-record period length in days:
`(snapshotEndingAt - snapshotBeginningAt).dt.days` followed by
`.clip(lower=1)`; NaN (either date missing) stays missing and is
skipped by the pandas mean. -/
def period_days (r : LoanRecord) : Option ℚ :=
  match r.snapshotBeginningAt, r.snapshotEndingAt with
  | some b, some e => some (max 1 ((e.day - b.day : Int) : ℚ))
  | _, _ => none

/-- The rows of `df` selected by the numerator mask
`df['accountEndingStatus'].isin(['Current', 'Delinquent'])`. -/
def numMaskRows (df : List LoanRecord) : List LoanRecord :=
  df.filter (fun r => numStatuses.contains r.accountEndingStatus)

/-- The rows of `df` selected by the denominator mask
`df['accountEndingStatus'].isin(['Current', 'Delinquent', 'Default'])`. -/
def denomMaskRows (df : List LoanRecord) : List LoanRecord :=
  df.filter (fun r => denomStatuses.contains r.accountEndingStatus)

/-- `avg_period_days = df.loc[num_mask, 'period_days'].mean()` followed by
`if pd.isna(avg_period_days) or avg_period_days == 0: avg_period_days = 30`
(repeated verbatim in each of the yield calculators).  The pandas mean
skips missing period lengths; it is NaN exactly when no row of the
numerator mask has both dates. -/
def avg_period_days (df : List LoanRecord) : ℚ :=
  let ds := (numMaskRows df).filterMap period_days
  if ds.isEmpty then 30
  else
    let m := ds.sum / (ds.length : ℚ)
    if m = 0 then 30 else m

/-- Result dictionary of
`YieldMetricsCalculator.calculate_gross_portfolio_yield`
(loan_tape_metrics.py lines 234-290). -/
structure GPYResult where
  gross_portfolio_yield : ℚ
  total_revenue : ℚ
  total_balance : ℚ
  current_revenue : ℚ
  delinquent_revenue : ℚ
  current_balance : ℚ
  delinquent_balance : ℚ
  default_balance : ℚ
  accounts_included_revenue : Nat
  accounts_included_balance : Nat
  avg_period_days : ℚ
  annualization_factor : ℚ
deriving DecidableEq, Repr

/-- Embedding of `YieldMetricsCalculator.calculate_gross_portfolio_yield`
(loan_tape_metrics.py lines 234-290). -/
def calculate_gross_portfolio_yield (data : List LoanRecord) (filter_active : Bool) : GPYResult :=
  let df := get_filtered_data data filter_active
  let total_balance := maskedSum df denomStatuses (·.accountDailyAveragePrincipalBalance)
  let total_revenue := maskedSum df numStatuses (·.lineFeesAccrued)
                     + maskedSum df numStatuses (·.cardNetInterchangeAccrued)
  let apd := avg_period_days df
  let gpy : ℚ := if 0 < total_balance then total_revenue / total_balance * (365 / apd) else 0
  { gross_portfolio_yield := gpy
    total_revenue := total_revenue
    total_balance := total_balance
    current_revenue := maskedSum df ["Current"] (·.lineFeesAccrued)
                     + maskedSum df ["Current"] (·.cardNetInterchangeAccrued)
    delinquent_revenue := maskedSum df ["Delinquent"] (·.lineFeesAccrued)
                        + maskedSum df ["Delinquent"] (·.cardNetInterchangeAccrued)
    current_balance := maskedSum df ["Current"] (·.accountDailyAveragePrincipalBalance)
    delinquent_balance := maskedSum df ["Delinquent"] (·.accountDailyAveragePrincipalBalance)
    default_balance := maskedSum df ["Default"] (·.accountDailyAveragePrincipalBalance)
    accounts_included_revenue := (numMaskRows df).length
    accounts_included_balance := (denomMaskRows df).length
    avg_period_days := apd
    annualization_factor := 365 / apd }

/-- Result dictionary of
`YieldMetricsCalculator.calculate_net_portfolio_yield`
(loan_tape_metrics.py lines 292-340). -/
structure NPYResult where
  net_portfolio_yield : ℚ
  total_revenue : ℚ
  total_costs : ℚ
  net_revenue : ℚ
  total_balance : ℚ
  cost_ratio : ℚ
  avg_period_days : ℚ
  annualization_factor : ℚ
deriving DecidableEq, Repr

/-- Embedding of `YieldMetricsCalculator.calculate_net_portfolio_yield`
(loan_tape_metrics.py lines 292-340). -/
def calculate_net_portfolio_yield (data : List LoanRecord) (filter_active : Bool) : NPYResult :=
  let df := get_filtered_data data filter_active
  let total_balance := maskedSum df denomStatuses (·.accountDailyAveragePrincipalBalance)
  let total_revenue := maskedSum df numStatuses (·.lineFeesAccrued)
                     + maskedSum df numStatuses (·.cardNetInterchangeAccrued)
  let total_costs := maskedSum df numStatuses (·.cardRewardsAccrued)
  let apd := avg_period_days df
  let net_revenue := total_revenue - total_costs
  let npy : ℚ := if 0 < total_balance then net_revenue / total_balance * (365 / apd) else 0
  { net_portfolio_yield := npy
    total_revenue := total_revenue
    total_costs := total_costs
    net_revenue := net_revenue
    total_balance := total_balance
    cost_ratio := if 0 < total_revenue then total_costs / total_revenue * 100 else 0
    avg_period_days := apd
    annualization_factor := 365 / apd }

/-- Result dictionary of
`YieldMetricsCalculator.calculate_net_portfolio_yield_after_cost_of_capital`
(loan_tape_metrics.py lines 342-374). -/
structure NPYAfterCocResult where
  net_portfolio_yield_after_coc : ℚ
  base_net_portfolio_yield : ℚ
  cost_of_capital : ℚ
  total_revenue : ℚ
  total_costs : ℚ
  net_revenue : ℚ
  total_balance : ℚ
  cost_ratio : ℚ
  avg_period_days : ℚ
  annualization_factor : ℚ
deriving DecidableEq, Repr

/-- Embedding of
`YieldMetricsCalculator.calculate_net_portfolio_yield_after_cost_of_capital`
(loan_tape_metrics.py lines 342-374): the net portfolio yield minus a
fixed 10% cost of capital. -/
def calculate_net_portfolio_yield_after_cost_of_capital
    (data : List LoanRecord) (filter_active : Bool) : NPYAfterCocResult :=
  let npy := calculate_net_portfolio_yield data filter_active
  { net_portfolio_yield_after_coc := npy.net_portfolio_yield - 1/10
    base_net_portfolio_yield := npy.net_portfolio_yield
    cost_of_capital := 1/10
    total_revenue := npy.total_revenue
    total_costs := npy.total_costs
    net_revenue := npy.net_revenue
    total_balance := npy.total_balance
    cost_ratio := npy.cost_ratio
    avg_period_days := npy.avg_period_days
    annualization_factor := npy.annualization_factor }

/-- Result dictionary of
`YieldMetricsCalculator.calculate_line_gross_portfolio_yield`
(loan_tape_metrics.py lines 376-412). -/
structure LineGPYResult where
  line_gross_portfolio_yield : ℚ
  total_line_revenue : ℚ
  total_line_balance : ℚ
  accounts_with_line_revenue : Nat
  accounts_with_line_balance : Nat
  avg_period_days : ℚ
  annualization_factor : ℚ
deriving DecidableEq, Repr

/-- Embedding of `YieldMetricsCalculator.calculate_line_gross_portfolio_yield`
(loan_tape_metrics.py lines 376-412). -/
def calculate_line_gross_portfolio_yield
    (data : List LoanRecord) (filter_active : Bool) : LineGPYResult :=
  let df := get_filtered_data data filter_active
  let total_line_balance := maskedSum df denomStatuses (·.lineDailyAveragePrincipalBalance)
  let total_line_revenue := maskedSum df numStatuses (·.lineFeesAccrued)
  let apd := avg_period_days df
  let y : ℚ := if 0 < total_line_balance then total_line_revenue / total_line_balance * (365 / apd) else 0
  { line_gross_portfolio_yield := y
    total_line_revenue := total_line_revenue
    total_line_balance := total_line_balance
    accounts_with_line_revenue :=
      ((numMaskRows df).filter (fun r => decide (0 < r.lineFeesAccrued))).length
    accounts_with_line_balance :=
      ((denomMaskRows df).filter (fun r => decide (0 < r.lineDailyAveragePrincipalBalance))).length
    avg_period_days := apd
    annualization_factor := 365 / apd }

/-- Result dictionary of
`YieldMetricsCalculator.calculate_card_gross_portfolio_yield`
(loan_tape_metrics.py lines 414-450). -/
structure CardGPYResult where
  card_gross_portfolio_yield : ℚ
  total_card_revenue : ℚ
  total_card_balance : ℚ
  accounts_with_card_revenue : Nat
  accounts_with_card_balance : Nat
  avg_period_days : ℚ
  annualization_factor : ℚ
deriving DecidableEq, Repr

/-- Embedding of `YieldMetricsCalculator.calculate_card_gross_portfolio_yield`
(loan_tape_metrics.py lines 414-450). -/
def calculate_card_gross_portfolio_yield
    (data : List LoanRecord) (filter_active : Bool) : CardGPYResult :=
  let df := get_filtered_data data filter_active
  let total_card_balance := maskedSum df denomStatuses (·.cardDailyAveragePrincipalBalance)
  let total_card_revenue := maskedSum df numStatuses (·.cardNetInterchangeAccrued)
  let apd := avg_period_days df
  let y : ℚ := if 0 < total_card_balance then total_card_revenue / total_card_balance * (365 / apd) else 0
  { card_gross_portfolio_yield := y
    total_card_revenue := total_card_revenue
    total_card_balance := total_card_balance
    accounts_with_card_revenue :=
      ((numMaskRows df).filter (fun r => decide (0 < r.cardNetInterchangeAccrued))).length
    accounts_with_card_balance :=
      ((denomMaskRows df).filter (fun r => decide (0 < r.cardDailyAveragePrincipalBalance))).length
    avg_period_days := apd
    annualization_factor := 365 / apd }

/-- Result dictionary of
`YieldMetricsCalculator.calculate_card_net_portfolio_yield`
(loan_tape_metrics.py lines 452-491). -/
structure CardNPYResult where
  card_net_portfolio_yield : ℚ
  total_card_revenue : ℚ
  total_card_costs : ℚ
  net_card_revenue : ℚ
  total_card_balance : ℚ
  card_cost_ratio : ℚ
  avg_period_days : ℚ
  annualization_factor : ℚ
deriving DecidableEq, Repr

/-- Embedding of `YieldMetricsCalculator.calculate_card_net_portfolio_yield`
(loan_tape_metrics.py lines 452-491). -/
def calculate_card_net_portfolio_yield
    (data : List LoanRecord) (filter_active : Bool) : CardNPYResult :=
  let df := get_filtered_data data filter_active
  let total_card_balance := maskedSum df denomStatuses (·.cardDailyAveragePrincipalBalance)
  let total_card_revenue := maskedSum df numStatuses (·.cardNetInterchangeAccrued)
  let total_card_costs := maskedSum df numStatuses (·.cardRewardsAccrued)
  let apd := avg_period_days df
  let net_card_revenue := total_card_revenue - total_card_costs
  let y : ℚ := if 0 < total_card_balance then net_card_revenue / total_card_balance * (365 / apd) else 0
  { card_net_portfolio_yield := y
    total_card_revenue := total_card_revenue
    total_card_costs := total_card_costs
    net_card_revenue := net_card_revenue
    total_card_balance := total_card_balance
    card_cost_ratio := if 0 < total_card_revenue then total_card_costs / total_card_revenue * 100 else 0
    avg_period_days := apd
    annualization_factor := 365 / apd }

/-- The recognized statuses, in the priority order
`['Closed', 'Current', 'Delinquent', 'Default', 'ChargedOff']`
shared by both copies of the business metrics calculator. -/
def priority_order : List String := ["Closed", "Current", "Delinquent", "Default", "ChargedOff"]

/-- Embedding of `BusinessMetricsCalculator._get_priority_status` of
loan_tape_metrics.py (lines 612-632): a per-record map that keeps a
recognized status and turns anything else into `'Unknown'`. -/
def get_priority_status_ltm (status : String) : String :=
  if priority_order.contains status then status else "Unknown"

/-- Lexicographic comparison of strings on UTF-8 code points (how
pandas orders the Python strings appearing here when sorting
`Series.mode()` results). -/
def lexLe : List Char → List Char → Bool
  | [], _ => true
  | _ :: _, [] => false
  | a :: as, b :: bs =>
    if a.val < b.val then true
    else if b.val < a.val then false
    else lexLe as bs

/-- The smallest string of `c :: cs` in lexicographic order. -/
def lexLeast (c : String) (cs : List String) : String :=
  cs.foldl (fun acc s => if lexLe s.data acc.data then s else acc) c

/-- The most frequent values of a list (the value set of
`Series.mode()`), as the sublist of distinct values whose count is
maximal. -/
def modeValues (l : List String) : List String :=
  l.dedup.filter (fun s => l.dedup.all (fun t => l.count t ≤ l.count s))

/-- Embedding of the status aggregation lambda of
`BusinessMetricsCalculator.calculate_business_metrics` in
loan_tape_metrics.py (line 567):
`lambda x: x.mode().iloc[0] if len(x.mode()) > 0 else 'Unknown'` -
the lexicographically smallest most-frequent value, or `'Unknown'`
for an empty series. -/
def pandas_mode_first (l : List String) : String :=
  match modeValues l with
  | [] => "Unknown"
  | c :: cs => lexLeast c cs

/-- The representative status a (business, vintage) group receives from
`BusinessMetricsCalculator.calculate_business_metrics` of
loan_tape_metrics.py (lines 554-570): each row's status is first mapped
by `_get_priority_status` (identity on recognized statuses, `'Unknown'`
otherwise, line 555) and the group is aggregated with the mode lambda
(line 567). -/
def ltm_group_status (group : List LoanRecord) : String :=
  pandas_mode_first (group.map (fun r => get_priority_status_ltm r.accountEndingStatus))

/-- Embedding of the loop body of
`BusinessMetricsCalculator._get_priority_status` of metrics.py
(lines 168-186): walk the priority order and return the first status
present in the series; fall through to `'Current'`. -/
def resolveLoop : List String → List String → String
  | [], _ => "Current"
  | p :: ps, statuses => if statuses.contains p then p else resolveLoop ps statuses

/-- Embedding of `BusinessMetricsCalculator._get_priority_status` of
metrics.py (lines 168-186), applied to the list of statuses of a
group's rows. -/
def get_priority_status (statuses : List String) : String :=
  resolveLoop priority_order statuses

/-- The representative status a (business, vintage) group receives from
`BusinessMetricsCalculator.calculate_business_metrics` of metrics.py
(lines 137-146): `_get_priority_status` over the group's status series. -/
def metrics_group_status (group : List LoanRecord) : String :=
  get_priority_status (group.map (·.accountEndingStatus))

/-- Resolver as the specification words it (spec section 4.2): the first
status, in the fixed order Closed, Current, Delinquent, Default,
ChargedOff, that occurs among the input statuses; `Current` when the
input is empty or contains no recognized status. -/
def specStatusResolve (statuses : List String) : String :=
  (priority_order.find? (fun p => statuses.contains p)).getD "Current"

/-- Group key of the business-vintage grouping:
`df.groupby(['businessGuid', 'vintage_month'])` with
`vintage_month = accountActivatedAt.dt.to_period('M')`; rows with a
missing activation date have a missing key and are dropped by pandas. -/
def vintageKey (r : LoanRecord) : Option (String × Int) :=
  r.accountActivatedAt.map (fun d => (r.businessGuid, d.month))

/-- The distinct (business, vintage month) keys.  (Pandas sorts group
keys; no claim depends on the key order, which is not carried.) -/
def vintageKeys (data : List LoanRecord) : List (String × Int) :=
  (data.filterMap vintageKey).dedup

/-- The rows grouped under key `k` by the business-vintage grouping. -/
def vintageGroup (data : List LoanRecord) (k : String × Int) : List LoanRecord :=
  data.filter (fun r => vintageKey r == some k)

/-- One output row of
`BusinessMetricsCalculator.calculate_business_metrics`
(loan_tape_metrics.py lines 528-610).  The `avgAccountAge` and `avgAPR`
columns are means of float-rounded helper columns (`.round(1)` /
`.round(2)` binary floating-point rounding); they are diagnostic
display columns no claim touches and binary float rounding has no exact
rational counterpart, so they are not carried. -/
structure BizVintageRow where
  businessGuid : String
  vintage_month : Int
  totalLimit : ℚ
  totalAverageDailyBalance : ℚ
  totalRevenue : ℚ
  primaryStatus : String
  accountCount : Nat
  accountTypes : List String
deriving DecidableEq, Repr

/-- Embedding of `BusinessMetricsCalculator.calculate_business_metrics`
(loan_tape_metrics.py lines 528-610): per (business, vintage) group, sum
the limit proxy (`1.2 * balance`), sum the balance, sum the revenue
(line fees + card interchange), aggregate the per-record
`_get_priority_status` results with the pandas mode lambda, count
records, and collect distinct account types in order of first
appearance.  The final display sorting of the rows (by business, status
priority, vintage descending) is a presentation step no claim touches
and is not carried; rows appear per distinct key in order of first
appearance. -/
def calculate_business_metrics (data : List LoanRecord) : List BizVintageRow :=
  (vintageKeys data).map (fun k =>
    let g := vintageGroup data k
    { businessGuid := k.1
      vintage_month := k.2
      totalLimit := ((g.map (fun r => r.accountDailyAveragePrincipalBalance * (12/10))).sum)
      totalAverageDailyBalance := (g.map (·.accountDailyAveragePrincipalBalance)).sum
      totalRevenue := (g.map (fun r => r.lineFeesAccrued + r.cardNetInterchangeAccrued)).sum
      primaryStatus := ltm_group_status g
      accountCount := g.length
      accountTypes := (g.map (·.accountType)).dedup })

/-- A JSON value as the refund / discount parsers dispatch on it after
`json.loads`: a bare number (JSON booleans also land here, since Python
`bool` is an `int`), an object whose relevant fields are
float-convertible values, an array, or anything else (null, string,
nested non-numeric data). -/
inductive JVal where
  | num (q : ℚ)
  | obj (fields : List (String × ℚ))
  | arr (elems : List JVal)
  | other

/-- A raw value of the `refunds` / `discounts` CSV column as the parsers
see it: missing (`pd.isna` or the empty string), a string that
`json.loads` accepts, or a non-JSON string (with the numeric value the
digit-test fallback extracts from it, when it extracts one). -/
inductive RawVal where
  | na
  | json (v : JVal)
  | nonJson (numeric : Option ℚ)

/-- Python `fields['k']` lookup guarded by `'k' in fields`. -/
def objLookup (fields : List (String × ℚ)) (k : String) : Option ℚ :=
  (fields.find? (fun p => p.1 == k)).map (·.2)

/-- The field-preference chain of `_parse_refunds` on a JSON object:
`shop_amount`, else `presentment_amount`, else `amount`; `none` when
none of the three fields is present. -/
def refundObjAmount (fields : List (String × ℚ)) : Option ℚ :=
  (objLookup fields "shop_amount").orElse
    (fun _ => (objLookup fields "presentment_amount").orElse
      (fun _ => objLookup fields "amount"))

/-- One iteration of the list loop of `_parse_refunds`: a dict element
contributes its resolved value (nothing, hence 0, when no field
matches), a non-dict element contributes nothing. -/
def refundElem : JVal → ℚ
  | .obj fields => (refundObjAmount fields).getD 0
  | _ => 0

/-- Embedding of `OrdersDataProcessor._parse_refunds`
(orders_data_processor.py lines 102-150).  The result is `none` exactly
when the Python function falls off the end of its `if/elif` chain
without executing a `return` (a JSON object containing none of the
three amount fields) and so returns Python `None` instead of a float. -/
def parse_refunds : RawVal → Option ℚ
  | .na => some 0
  | .json (.num q) => some q
  | .json (.obj fields) => refundObjAmount fields
  | .json (.arr []) => some 0
  | .json (.arr es) => some ((es.map refundElem).sum)
  | .json .other => some 0
  | .nonJson (some q) => some q
  | .nonJson none => some 0

/-- The field-preference chain of `_parse_discounts` on a JSON object:
`amount`, else `shop_amount`, else `presentment_amount` (deliberately
the reverse of the refunds chain). -/
def discountObjAmount (fields : List (String × ℚ)) : Option ℚ :=
  (objLookup fields "amount").orElse
    (fun _ => (objLookup fields "shop_amount").orElse
      (fun _ => objLookup fields "presentment_amount"))

/-- One iteration of the list loop of `_parse_discounts`. -/
def discountElem : JVal → ℚ
  | .obj fields => (discountObjAmount fields).getD 0
  | _ => 0

/-- Embedding of `OrdersDataProcessor._parse_discounts`
(orders_data_processor.py lines 152-200); same structure as
`parse_refunds` with the reversed field preference, and the same
fall-off-the-end `none` for an object with none of the three fields. -/
def parse_discounts : RawVal → Option ℚ
  | .na => some 0
  | .json (.num q) => some q
  | .json (.obj fields) => discountObjAmount fields
  | .json (.arr []) => some 0
  | .json (.arr es) => some ((es.map discountElem).sum)
  | .json .other => some 0
  | .nonJson (some q) => some q
  | .nonJson none => some 0

/-- One element of a parsed `line_items` JSON array as
`_extract_total_amount` dispatches on it: a dict with a `price_set`
dict carrying a float-convertible `shop_amount`, or anything else
(contributing nothing). -/
inductive LineItem where
  | withPrice (shop_amount : ℚ)
  | other
deriving DecidableEq, Repr

/-- A raw value of the `line_items` CSV column: missing, a JSON array
of items, some other JSON value (iterating it adds nothing or raises,
both absorbed to 0), or malformed input (JSON decode error or a failed
float conversion mid-loop, both absorbed to 0 by the except clause). -/
inductive LineItemsRaw where
  | na
  | items (l : List LineItem)
  | jsonOther
  | bad
deriving DecidableEq, Repr

/-- Embedding of `OrdersDataProcessor._extract_total_amount`
(orders_data_processor.py lines 73-100): sum the `price_set.shop_amount`
of each well-shaped item; every failure mode yields 0.0. -/
def extract_total_amount : LineItemsRaw → ℚ
  | .na => 0
  | .jsonOther => 0
  | .bad => 0
  | .items l => (l.map (fun it => match it with
      | .withPrice q => q
      | .other => 0)).sum

/-- One raw row of the orders CSV, before derivation of the revenue
columns. -/
structure RawOrder where
  order_id : String
  customer : String
  created_at : Option Date
  line_items : LineItemsRaw
  refunds : RawVal
  discounts : RawVal

/-- One loaded order row after
`OrdersDataProcessor.load_orders_data` (orders_data_processor.py lines
16-49) has derived `gross_amount`, `refunds`, `discounts` and
`net_revenue = gross_amount - refunds - discounts`. -/
structure Order where
  order_id : String
  customer : String
  created_at : Option Date
  gross_amount : ℚ
  refunds : ℚ
  discounts : ℚ
  net_revenue : ℚ
deriving DecidableEq, Repr

/-- Embedding of the per-row derivation of
`OrdersDataProcessor.load_orders_data` (orders_data_processor.py lines
36-44).  When a parser returns Python `None` for a row, the vectorized
subtraction `df['gross_amount'] - df['refunds'] - df['discounts']`
raises and no frame is produced; that failure is modelled by `none`
(the row - in fact the whole load - is not loaded). -/
def loadOrder (raw : RawOrder) : Option Order :=
  match parse_refunds raw.refunds, parse_discounts raw.discounts with
  | some r, some d =>
    let g := extract_total_amount raw.line_items
    some { order_id := raw.order_id
           customer := raw.customer
           created_at := raw.created_at
           gross_amount := g
           refunds := r
           discounts := d
           net_revenue := g - r - d }
  | _, _ => none

/-- The orders of customer `c`:
the group produced by `orders_data.groupby('customer')`. -/
def custOrders (orders : List Order) (c : String) : List Order :=
  orders.filter (fun o => o.customer == c)

/-- The distinct customers of a dataset (`nunique` and
`groupby('customer')` both range over these; no claim depends on their
order). -/
def customers (orders : List Order) : List String :=
  (orders.map (·.customer)).dedup

/-- `orders_data['customer'].nunique()`. -/
def nunique_customers (orders : List Order) : Nat :=
  (customers orders).length

/-- The earlier of two timestamps. -/
def minDate (a b : Date) : Date :=
  if b.day < a.day then b else a

/-- `groupby('customer').agg({'created_at': 'min'})`: the earliest
non-missing order timestamp of customer `c`; `none` when every order of
`c` has a missing timestamp (the pandas min of an all-NaT series is
NaT). -/
def first_order_date (orders : List Order) (c : String) : Option Date :=
  match (custOrders orders c).filterMap (·.created_at) with
  | [] => none
  | d :: ds => some (ds.foldl minDate d)

/-- `cohort_month = first_order_date.dt.to_period('M')`
(orders_data_analyzer.py line 94). -/
def cohort_month (orders : List Order) (c : String) : Option Int :=
  (first_order_date orders c).map (·.month)

/-- `order_count` of a customer (`'order_id': 'count'`). -/
def customer_order_count (orders : List Order) (c : String) : Nat :=
  (custOrders orders c).length

/-- `total_spent` of a customer (`'net_revenue': 'sum'`). -/
def customer_total_spent (orders : List Order) (c : String) : ℚ :=
  ((custOrders orders c).map (·.net_revenue)).sum

/-- One row of the cohort metrics frame built by
`OrdersAnalyzer._calculate_cohort_metrics`
(orders_data_analyzer.py lines 77-115). -/
structure CohortRow where
  cohort_month : Int
  customer_count : Nat
  total_orders : Nat
  total_revenue : ℚ
  average_orders_per_customer : ℚ
  average_revenue_per_customer : ℚ
  avg_aov : ℚ
deriving DecidableEq, Repr

/-- The distinct non-missing cohort months (pandas
`groupby('cohort_month')` drops customers whose first-order date is
NaT). -/
def cohortKeys (orders : List Order) : List Int :=
  ((customers orders).filterMap (cohort_month orders)).dedup

/-- The customers assigned to cohort month `m`. -/
def cohortCustomers (orders : List Order) (m : Int) : List String :=
  (customers orders).filter (fun c => cohort_month orders c == some m)

/-- Embedding of `OrdersAnalyzer._calculate_cohort_metrics`
(orders_data_analyzer.py lines 77-115): per customer, the first order
date, order count and summed net revenue; per cohort month, the
customer count and the summed order counts and revenue, with the
derived per-customer and per-order averages. -/
def calculate_cohort_metrics (orders : List Order) : List CohortRow :=
  (cohortKeys orders).map (fun m =>
    let cs := cohortCustomers orders m
    let customer_count := cs.length
    let total_orders := (cs.map (customer_order_count orders)).sum
    let total_revenue := (cs.map (customer_total_spent orders)).sum
    { cohort_month := m
      customer_count := customer_count
      total_orders := total_orders
      total_revenue := total_revenue
      average_orders_per_customer := (total_orders : ℚ) / (customer_count : ℚ)
      average_revenue_per_customer := total_revenue / (customer_count : ℚ)
      avg_aov := total_revenue / (total_orders : ℚ) })

/-- `orders_data['net_revenue'].sum()`. -/
def total_net_revenue (orders : List Order) : ℚ :=
  (orders.map (·.net_revenue)).sum

/-- The `average_ltv` field of `OrdersAnalyzer._calculate_global_ltv`
(orders_data_analyzer.py lines 117-140): total net revenue over
distinct customers, 0 when there are no customers. -/
def global_ltv (orders : List Order) : ℚ :=
  if 0 < nunique_customers orders then
    total_net_revenue orders / (nunique_customers orders : ℚ)
  else 0

/-- One bank-transaction row after
`OrdersDataProcessor.load_bank_transactions`: the date and the amount
are coerced with `errors='coerce'`, so an unparseable value is missing. -/
structure BankTransaction where
  date : Option Date
  category : Option String
  amount : Option ℚ
deriving DecidableEq, Repr

/-- Whether `chars` occurs as a contiguous prefix of `hay`. -/
def isPrefixB : List Char → List Char → Bool
  | [], _ => true
  | _ :: _, [] => false
  | a :: as, b :: bs => a == b && isPrefixB as bs

/-- Whether `needle` occurs contiguously inside `hay` (Python's
case-sensitive `'Marketing' in category` substring test, which is what
`Series.str.contains` performs for a plain pattern). -/
def containsSub (needle hay : List Char) : Bool :=
  match hay with
  | [] => isPrefixB needle []
  | _ :: rest => isPrefixB needle hay || containsSub needle rest

/-- The marketing filter
`bank_transactions['category'].str.contains('Marketing', na=False)`:
a missing category row is excluded. -/
def matchesMarketing (t : BankTransaction) : Bool :=
  match t.category with
  | none => false
  | some c => containsSub "Marketing".data c.data

/-- The signed marketing spend of
`OrdersAnalyzer._calculate_global_cac` (orders_data_analyzer.py lines
209-211): the plain sum of the `amount` column over the marketing-
filtered rows (the pandas sum skips missing amounts). -/
def marketing_spend (txs : List BankTransaction) : ℚ :=
  ((txs.filter matchesMarketing).filterMap (·.amount)).sum

/-- The `total_marketing_spend` field reported by
`OrdersAnalyzer._calculate_global_cac` (line 222):
`abs(marketing_spend)`, the absolute value taken after summing. -/
def total_marketing_spend (txs : List BankTransaction) : ℚ :=
  |marketing_spend txs|

/-- The `estimated_cac` field of `OrdersAnalyzer._calculate_global_cac`
(line 214): `abs(marketing_spend) / total_customers` guarded by
`total_customers > 0`. -/
def estimated_cac (txs : List BankTransaction) (orders : List Order) : ℚ :=
  if 0 < nunique_customers orders then
    |marketing_spend txs| / (nunique_customers orders : ℚ)
  else 0

/-- The `ltv_cac_ratio` field of `OrdersAnalyzer._calculate_global_cac`
(line 218): global LTV over estimated CAC, guarded by
`estimated_cac > 0`. -/
def ltv_cac_ratio (txs : List BankTransaction) (orders : List Order) : ℚ :=
  if 0 < estimated_cac txs orders then
    global_ltv orders / estimated_cac txs orders
  else 0

/-- Embedding of `PortfolioMetricsCalculator._filter_by_date_range`
(loan_tape_metrics.py lines 103-126), with the bounds given as absolute
day numbers: rows whose `snapshotEndingAt` is outside the bounds are
dropped, and a NaT `snapshotEndingAt` compares False against either
bound and is dropped whenever a bound is present. -/
def filter_by_date_range (data : List LoanRecord) (sd ed : Option Int) : List LoanRecord :=
  let d1 := match sd with
    | none => data
    | some s => data.filter (fun r => match r.snapshotEndingAt with
        | none => false
        | some d => decide (s ≤ d.day))
  match ed with
  | none => d1
  | some e => d1.filter (fun r => match r.snapshotEndingAt with
      | none => false
      | some d => decide (d.day ≤ e))

/-- A loan-tape DataFrame as an object the caller holds: its rows plus
the list of column names currently present (derived columns a
computation assigns in place are visible to the caller afterwards). -/
structure LoanFrame where
  rows : List LoanRecord
  cols : List String
deriving DecidableEq, Repr

/-- Column assignment `df[c] = ...`: adds the column name if absent
(overwriting an existing column keeps the name present). -/
def insertCol (c : String) (cols : List String) : List String :=
  if cols.contains c then cols else cols ++ [c]

/-- The call `PortfolioMetricsCalculator.calculate_portfolio_metrics(f, sd, ed)`
as a state transformer on the caller's frame (loan_tape_metrics.py
lines 16-45; the metrics.py copy, lines 14-43, performs the same
assignments): when no date filter is given, the month-column assignment
`data['month'] = data['snapshotEndingAt'].dt.to_period('M')` (line 36)
executes on the caller's frame in place; when a filter is given, `data`
has first been rebound to a filtered copy (line 33), the assignment
lands on that copy, and the caller's frame is untouched. -/
def calculate_portfolio_metrics_run (f : LoanFrame) (sd ed : Option Int) :
    LoanFrame × List (Int × MonthlyMetrics) :=
  match sd, ed with
  | none, none =>
    ({ f with cols := insertCol "month" f.cols }, calculate_portfolio_metrics f.rows)
  | _, _ =>
    (f, calculate_portfolio_metrics (filter_by_date_range f.rows sd ed))

/-- The call `BusinessMetricsCalculator.calculate_business_metrics(f)`
of loan_tape_metrics.py as a state transformer: the function copies its
input first (`df = data.copy()`, line 540), so the caller's frame is
returned unchanged. -/
def calculate_business_metrics_run (f : LoanFrame) : LoanFrame × List BizVintageRow :=
  (f, calculate_business_metrics f.rows)

/-- The frame effect of `BusinessMetricsCalculator.calculate_business_metrics`
of metrics.py (lines 117-146): the helper columns `vintage_month`
(line 129) and `account_age_months` (line 132) are assigned on the
caller's frame in place, with no prior copy.  Only the effect on the
input is modelled here; the aggregate this legacy copy returns is built
on fresh frames and is not needed by any claim. -/
def metrics_business_effect (f : LoanFrame) : LoanFrame :=
  { f with cols := insertCol "account_age_months" (insertCol "vintage_month" f.cols) }

/-- An orders DataFrame as an object the caller holds. -/
structure OrdersFrame where
  rows : List Order
  cols : List String
deriving DecidableEq, Repr

/-- The call `OrdersAnalyzer._calculate_cohort_metrics()` as a state
transformer on the orders frame (orders_data_analyzer.py lines 77-115):
every derived column is assigned on the freshly built `customer_cohorts`
and `cohort_metrics` frames produced by `groupby(...).agg(...)`, so the
orders frame is returned unchanged. -/
def calculate_cohort_metrics_run (f : OrdersFrame) : OrdersFrame × List CohortRow :=
  (f, calculate_cohort_metrics f.rows)

/-- Default timestamp used only to totalize field access under a
hypothesis that the optional date is present. -/
instance : Inhabited Date := ⟨⟨0, 0⟩⟩

/-- Claim-side numerator revenue of the monthly metrics: the sum of
line fees plus card interchange over the records whose status lies in
the set Current, Delinquent. -/
def claim_num_revenue (g : List LoanRecord) : ℚ :=
  ((g.filter (fun r => decide (r.accountEndingStatus = "Current" ∨
      r.accountEndingStatus = "Delinquent"))).map
    (fun r => r.lineFeesAccrued + r.cardNetInterchangeAccrued)).sum

/-- Claim-side denominator balance of the monthly metrics: the sum of
the average daily principal balance over the records whose status lies
in the set Current, Delinquent, Default. -/
def claim_denom_balance (g : List LoanRecord) : ℚ :=
  ((g.filter (fun r => decide (r.accountEndingStatus = "Current" ∨
      r.accountEndingStatus = "Delinquent" ∨
      r.accountEndingStatus = "Default"))).map
    (·.accountDailyAveragePrincipalBalance)).sum

/-- The gross yield as the claim words it: numerator revenue over
denominator balance times 12, and 0 when the balance sum is 0. -/
def claim_gross_yield (g : List LoanRecord) : ℚ :=
  if claim_denom_balance g = 0 then 0
  else claim_num_revenue g / claim_denom_balance g * 12

/-- Marketing spend as the claim words it: the sum of the absolute
values of the amounts of the transactions whose category contains the
substring Marketing (missing categories excluded, missing amounts
skipped by the pandas sum). -/
def claim_marketing_spend (txs : List BankTransaction) : ℚ :=
  (((txs.filter matchesMarketing).filterMap (·.amount)).map (fun a => |a|)).sum

/-- The global CAC as the claim words it: claim-side marketing spend
over the number of distinct customers, 0 when there are none. -/
def claim_global_cac (txs : List BankTransaction) (orders : List Order) : ℚ :=
  if nunique_customers orders = 0 then 0
  else claim_marketing_spend txs / (nunique_customers orders : ℚ)

/-- The per-record period length as the claim words it: period end
minus period start in days, floored at a minimum of 1.  The `getD`
defaults are only reached for a record with a missing date, which the
theorems exclude by hypothesis. -/
def claim_period_len (r : LoanRecord) : ℚ :=
  max 1 ((((r.snapshotEndingAt.getD default).day - (r.snapshotBeginningAt.getD default).day : Int)) : ℚ)

/-- The average period length as the claim words it: the mean of the
per-record period lengths over exactly the records of the numerator
mask, with a default of 30 days when that subset is empty. -/
def claim_avg_period_days (df : List LoanRecord) : ℚ :=
  let rs := df.filter (fun r => decide (r.accountEndingStatus = "Current" ∨
      r.accountEndingStatus = "Delinquent"))
  if rs.isEmpty then 30
  else (rs.map claim_period_len).sum / (rs.length : ℚ)

/-- The annualization factor as the claim words it: 365 over the
average period length of the numerator-mask records. -/
def claim_annualization_factor (df : List LoanRecord) : ℚ :=
  365 / claim_avg_period_days df

/-- A sum of zeros over any index list is zero. -/
theorem sum_map_zero {β : Type} {M : Type} [AddCommMonoid M] (ks : List β) :
    (ks.map (fun _ => (0 : M))).sum = 0 := by
  induction ks with
  | nil => rfl
  | cons k ks ih => simp [ih]

/-- A sum of ones over an index list is its length. -/
theorem sum_map_one {α : Type} (l : List α) : (l.map (fun _ => (1 : ℕ))).sum = l.length := by
  induction l with
  | nil => rfl
  | cons a l ih => simp [ih, Nat.add_comm]

/-- Adding `c` at exactly one index of a sum over a duplicate-free index
list adds `c` to the sum. -/
theorem sum_map_ite_add {β : Type} {M : Type} [AddCommMonoid M] [DecidableEq β] :
    ∀ (ks : List β), ks.Nodup → ∀ (k₀ : β), k₀ ∈ ks → ∀ (c : M) (g : β → M),
    (ks.map (fun k => if k = k₀ then c + g k else g k)).sum = c + (ks.map g).sum := by
  intro ks
  induction ks with
  | nil => intro _ k₀ hk₀; exact absurd hk₀ (List.not_mem_nil k₀)
  | cons k ks ih =>
    intro hnd k₀ hk₀ c g
    rcases List.mem_cons.mp hk₀ with hk | hk
    · subst hk
      have htail : ∀ x ∈ ks, (if x = k₀ then c + g x else g x) = g x := by
        intro x hx
        have hxk : x ≠ k₀ := fun he => (List.nodup_cons.mp hnd).1 (he ▸ hx)
        simp [hxk]
      simp only [List.map_cons, List.sum_cons, if_pos rfl, List.map_congr_left htail]
      exact add_assoc c (g k₀) _
    · have hkk : k ≠ k₀ := fun he => (List.nodup_cons.mp hnd).1 (he ▸ hk)
      simp only [List.map_cons, List.sum_cons, if_neg hkk,
        ih (List.nodup_cons.mp hnd).2 k₀ hk c g]
      rw [add_left_comm]

/-- Fiberwise summation over a list: when every row is selected by
exactly one key of a duplicate-free key list, summing each key's
selected rows and then summing over the keys gives the total sum. -/
theorem sum_fiber {α β : Type} {M : Type} [AddCommMonoid M] [DecidableEq β]
    (ks : List β) (hnd : ks.Nodup) (sel : β → α → Bool) (f : α → M) :
    ∀ (l : List α), (∀ x ∈ l, ∃ k, k ∈ ks ∧ sel k x = true) →
    (∀ x ∈ l, ∀ k k', sel k x = true → sel k' x = true → k = k') →
    (ks.map (fun k => ((l.filter (sel k)).map f).sum)).sum = (l.map f).sum := by
  intro l
  induction l with
  | nil => intro _ _; simp [sum_map_zero]
  | cons a l ih =>
    intro hex huniq
    obtain ⟨k₀, hk₀, hsel⟩ := hex a (List.mem_cons_self a l)
    have step : ∀ k ∈ ks,
        (((a :: l).filter (sel k)).map f).sum =
          (if k = k₀ then f a + ((l.filter (sel k)).map f).sum
           else ((l.filter (sel k)).map f).sum) := by
      intro k hk
      rw [List.filter_cons]
      by_cases hkk : k = k₀
      · subst hkk
        simp [hsel]
      · have hka : sel k a = false := by
          cases hsk : sel k a
          · rfl
          · exact absurd (huniq a (List.mem_cons_self a l) k k₀ hsk hsel) hkk
        simp [hka, hkk]
    rw [List.map_congr_left step,
      sum_map_ite_add ks hnd k₀ hk₀ (f a) (fun k => ((l.filter (sel k)).map f).sum),
      ih (fun x hx => hex x (List.mem_cons_of_mem a hx))
         (fun x hx => huniq x (List.mem_cons_of_mem a hx))]
    simp

/-- When every element is sent to `some`, `filterMap` is a `map`. -/
theorem filterMap_eq_map_getD {α : Type} (g : α → Option ℚ) (d : ℚ) :
    ∀ (l : List α), (∀ x ∈ l, (g x).isSome) →
    l.filterMap g = l.map (fun x => (g x).getD d) := by
  intro l
  induction l with
  | nil => intro _; rfl
  | cons a l ih =>
    intro h
    obtain ⟨y, hy⟩ := Option.isSome_iff_exists.mp (h a (List.mem_cons_self a l))
    simp [List.filterMap_cons, hy, ih (fun x hx => h x (List.mem_cons_of_mem a hx))]

/-- A list of rationals that are all at least 1 sums to at least its
length. -/
theorem length_le_sum_of_one_le (l : List ℚ) (h : ∀ x ∈ l, (1 : ℚ) ≤ x) :
    (l.length : ℚ) ≤ l.sum := by
  induction l with
  | nil => simp
  | cons a l ih =>
    have h1 := h a (List.mem_cons_self a l)
    have h2 := ih (fun x hx => h x (List.mem_cons_of_mem a hx))
    simp only [List.sum_cons, List.length_cons]
    push_cast
    linarith

/-- The boolean membership test of the numerator status mask, as a
disjunction. -/
theorem contains_numStatuses (s : String) :
    numStatuses.contains s = decide (s = "Current" ∨ s = "Delinquent") := by
  rw [Bool.eq_iff_iff]
  simp [numStatuses, List.elem_iff]

/-- The boolean membership test of the denominator status mask, as a
disjunction. -/
theorem contains_denomStatuses (s : String) :
    denomStatuses.contains s = decide (s = "Current" ∨ s = "Delinquent" ∨ s = "Default") := by
  rw [Bool.eq_iff_iff]
  simp [denomStatuses, List.elem_iff]

/-- Summing a pointwise sum of two columns is summing each column. -/
theorem sum_map_add_cols (l : List LoanRecord) (f g : LoanRecord → ℚ) :
    (l.map (fun r => f r + g r)).sum = (l.map f).sum + (l.map g).sum := by
  induction l with
  | nil => simp
  | cons a l ih =>
    simp only [List.map_cons, List.sum_cons, ih]
    ring

/-- The priority loop returns the first matching entry of the priority
order, `'Current'` when none matches. -/
theorem resolveLoop_eq_find (statuses : List String) :
    ∀ ps : List String,
    resolveLoop ps statuses = (ps.find? (fun p => statuses.contains p)).getD "Current" := by
  intro ps
  induction ps with
  | nil => rfl
  | cons p ps ih =>
    by_cases h : p ∈ statuses
    · simp [resolveLoop, List.find?, h]
    · simp [resolveLoop, List.find?, h, ih]

/-- A record whose only interesting attribute is its ending status;
used to build concrete groups. -/
def mkStatusRec (s : String) : LoanRecord :=
  { businessGuid := "b1"
    capitalAccountGuid := "a1"
    accountType := "LineRevolving"
    accountEndingStatus := s
    snapshotBeginningAt := none
    snapshotEndingAt := none
    accountActivatedAt := none
    accountDailyAveragePrincipalBalance := 0
    lineDailyAveragePrincipalBalance := 0
    cardDailyAveragePrincipalBalance := 0
    lineFeesAccrued := 0
    cardNetInterchangeAccrued := 0
    cardRewardsAccrued := 0 }

/-- A (business, vintage) group with two Delinquent rows and one
Current row: its most frequent status is Delinquent, while the first
status of the priority order present in it is Current. -/
def c1_group : List LoanRecord :=
  [mkStatusRec "Delinquent", mkStatusRec "Delinquent", mkStatusRec "Current"]

/-- C1 counterexample: the live business-vintage aggregation
(loan_tape_metrics.py) resolves the representative status of a group by
frequency (`Series.mode()`), not by the fixed priority order: on a
group with statuses Delinquent, Delinquent, Current it produces
Delinquent, while the first status of the order
Closed, Current, Delinquent, Default, ChargedOff present in the group
is Current. -/
theorem c1_mode_not_priority :
    ltm_group_status c1_group = "Delinquent" ∧
    specStatusResolve (c1_group.map (·.accountEndingStatus)) = "Current" ∧
    ltm_group_status c1_group ≠ specStatusResolve (c1_group.map (·.accountEndingStatus)) := by
  refine ⟨by decide, by decide, by decide⟩

/-- C1 (amended): the claimed priority resolution is exactly what the
legacy business-vintage aggregation of metrics.py computes: for every
group of account-period records, `_get_priority_status` over the
group's statuses returns the first status of the fixed order
Closed, Current, Delinquent, Default, ChargedOff occurring among them,
and Current when the group is empty or contains no recognized status;
the loan_tape_metrics.py aggregation instead uses the group's most
frequent status. -/
theorem c1_metrics_priority_status (group : List LoanRecord) :
    metrics_group_status group = specStatusResolve (group.map (·.accountEndingStatus)) := by
  unfold metrics_group_status get_priority_status specStatusResolve
  exact resolveLoop_eq_find (group.map (·.accountEndingStatus)) priority_order

/-- C3: a raw refunds or discounts value that parses to a JSON object
containing none of the three amount fields makes the parser fall off
the end of its `if/elif` chain: the Python function returns `None`
(modelled `none`) instead of the 0.0 float its signature, docstring and
the claim promise. -/
theorem c3_empty_object_returns_none :
    parse_refunds (.json (.obj [])) = none ∧ parse_discounts (.json (.obj [])) = none :=
  ⟨rfl, rfl⟩

/-- C7: every loaded order carries
`net_revenue = gross_amount - refunds - discounts` exactly as computed
by `load_orders_data`; the value is never clamped. -/
theorem c7_net_revenue_identity (raw : RawOrder) (o : Order) (h : loadOrder raw = some o) :
    o.net_revenue = o.gross_amount - o.refunds - o.discounts := by
  unfold loadOrder at h
  cases hr : parse_refunds raw.refunds with
  | none => rw [hr] at h; exact absurd h (by simp)
  | some r =>
    cases hd : parse_discounts raw.discounts with
    | none => rw [hr, hd] at h; exact absurd h (by simp)
    | some d =>
      rw [hr, hd] at h
      simp only [Option.some.injEq] at h
      subst h
      rfl

/-- A raw order whose discounts exceed its gross amount. -/
def c7_raw : RawOrder :=
  { order_id := "o1"
    customer := "c1"
    created_at := none
    line_items := .items [.withPrice 100]
    refunds := .json (.num 0)
    discounts := .json (.num 120) }

/-- The order `c7_raw` loads to. -/
def c7_order : Order :=
  { order_id := "o1"
    customer := "c1"
    created_at := none
    gross_amount := 100
    refunds := 0
    discounts := 120
    net_revenue := -20 }

/-- C7 witness: a concrete order with discounts exceeding gross loads
with `net_revenue = 100 - 0 - 120 = -20`, satisfying the identity with
a negative, unclamped result. -/
theorem c7_net_revenue_identity_witness :
    loadOrder c7_raw = some c7_order ∧
    c7_order.net_revenue = c7_order.gross_amount - c7_order.refunds - c7_order.discounts ∧
    c7_order.net_revenue < 0 := by
  have hload : loadOrder c7_raw = some c7_order := by
    simp only [loadOrder, c7_raw, parse_refunds, parse_discounts, extract_total_amount,
      c7_order, Option.some.injEq, List.map_cons, List.map_nil, List.sum_cons, List.sum_nil]
    norm_num
  exact ⟨hload, c7_net_revenue_identity c7_raw c7_order hload, by norm_num [c7_order]⟩

/-- The filtered sum of the amount column, written as one pass over all
transactions: a non-matching row contributes 0, a matching row its
amount (0 when the amount is missing). -/
theorem marketing_spend_eq_ite_sum :
    ∀ txs : List BankTransaction,
    marketing_spend txs =
      (txs.map (fun t => if matchesMarketing t then t.amount.getD 0 else 0)).sum := by
  intro txs
  induction txs with
  | nil => rfl
  | cons t ts ih =>
    unfold marketing_spend at *
    rw [List.filter_cons]
    by_cases hm : matchesMarketing t = true
    · cases ha : t.amount with
      | none => simp [hm, ha, List.filterMap_cons, ih]
      | some a => simp [hm, ha, List.filterMap_cons, ih]
    · have hm' : matchesMarketing t = false := by
        cases hmt : matchesMarketing t
        · rfl
        · exact absurd hmt hm
      simp [hm', ih]

/-- C2 (amended): the marketing spend the CAC computation reports is
the absolute value of the signed sum of the matching transaction
amounts (`abs(marketing_spend)`, the absolute value taken after
summing, not a sum of absolute values), and the global CAC is that
quantity divided by the number of distinct customers, 0 when there are
none. -/
theorem c2_cac_is_abs_of_signed_sum (txs : List BankTransaction) (orders : List Order) :
    total_marketing_spend txs =
      |(txs.map (fun t => if matchesMarketing t then t.amount.getD 0 else 0)).sum| ∧
    estimated_cac txs orders =
      (if nunique_customers orders = 0 then 0
       else total_marketing_spend txs / (nunique_customers orders : ℚ)) := by
  constructor
  · unfold total_marketing_spend
    rw [marketing_spend_eq_ite_sum]
  · unfold estimated_cac total_marketing_spend
    rcases Nat.eq_zero_or_pos (nunique_customers orders) with h | h
    · simp [h]
    · simp [Nat.pos_iff_ne_zero.mp h, h]

/-- Two marketing transactions with amounts of opposite signs. -/
def c2_txs : List BankTransaction :=
  [{ date := none, category := some "Marketing", amount := some (-100) },
   { date := none, category := some "Marketing", amount := some 50 }]

/-- A single-customer orders dataset. -/
def c2_orders : List Order :=
  [{ order_id := "o1", customer := "c1", created_at := none,
     gross_amount := 0, refunds := 0, discounts := 0, net_revenue := 0 }]

/-- C2 counterexample: on marketing amounts -100 and 50 for one
customer, the claimed sum of absolute values is 150 and the claimed CAC
is 150, but the code sums first and takes the absolute value afterwards,
reporting a marketing spend of 50 and a CAC of 50. -/
theorem c2_abs_sum_order_counterexample :
    claim_marketing_spend c2_txs = 150 ∧
    total_marketing_spend c2_txs = 50 ∧
    claim_global_cac c2_txs c2_orders = 150 ∧
    estimated_cac c2_txs c2_orders = 50 := by
  have hm : ∀ t ∈ c2_txs, matchesMarketing t = true := by decide
  have h1 : c2_txs.filter matchesMarketing = c2_txs :=
    List.filter_eq_self.mpr hm
  have hn : nunique_customers c2_orders = 1 := by decide
  refine ⟨?_, ?_, ?_, ?_⟩
  · unfold claim_marketing_spend
    rw [h1]
    norm_num [c2_txs, List.filterMap_cons]
  · unfold total_marketing_spend marketing_spend
    rw [h1]
    norm_num [c2_txs, List.filterMap_cons]
  · unfold claim_global_cac claim_marketing_spend
    rw [h1, hn]
    norm_num [c2_txs, List.filterMap_cons]
  · unfold estimated_cac marketing_spend
    rw [h1, hn]
    norm_num [c2_txs, List.filterMap_cons]

/-- A guarded ratio of the shape the sources use
(`x / d ... if d > 0 else 0`) is 0 when the denominator is 0. -/
theorem guarded_ratio_zero (x y : ℚ) (h : x = 0) : (if 0 < x then y else 0) = 0 := by
  simp [h]

/-- C6 (amended): every rate, yield and ratio of the engines is total
(no division can raise) and the directly guarded ones return 0 when
their denominator is 0: the monthly status rates and gross yield, the
portfolio-wide rates, five of the six annualized yields (gross, net,
line-gross, card-gross, card-net), the global LTV, the estimated CAC,
and the LTV/CAC ratio (which is 0 whenever the estimated CAC is 0).
The sixth yield, the net portfolio yield after cost of capital, is not
guarded to 0: it is the net portfolio yield minus the fixed 0.10 cost
of capital, hence 0 - 1/10 = -0.10 when the denominator balance is 0. -/
theorem c6_zero_denominators (g data : List LoanRecord) (fa : Bool)
    (txs : List BankTransaction) (orders : List Order) :
    ((calculate_monthly_metrics g).total_accounts = 0 →
      (calculate_monthly_metrics g).delinquency_rate = 0 ∧
      (calculate_monthly_metrics g).default_rate = 0 ∧
      (calculate_monthly_metrics g).charge_off_rate = 0) ∧
    ((calculate_monthly_metrics g).portfolio_size = 0 →
      (calculate_monthly_metrics g).gross_yield = 0) ∧
    ((calculate_portfolio_wide_rates data).total_accounts = 0 →
      (calculate_portfolio_wide_rates data).delinquency_rate = 0 ∧
      (calculate_portfolio_wide_rates data).default_rate = 0 ∧
      (calculate_portfolio_wide_rates data).charge_off_rate = 0) ∧
    ((calculate_gross_portfolio_yield data fa).total_balance = 0 →
      (calculate_gross_portfolio_yield data fa).gross_portfolio_yield = 0) ∧
    ((calculate_net_portfolio_yield data fa).total_balance = 0 →
      (calculate_net_portfolio_yield data fa).net_portfolio_yield = 0) ∧
    ((calculate_net_portfolio_yield data fa).total_balance = 0 →
      (calculate_net_portfolio_yield_after_cost_of_capital data fa).net_portfolio_yield_after_coc
        = 0 - 1/10) ∧
    ((calculate_line_gross_portfolio_yield data fa).total_line_balance = 0 →
      (calculate_line_gross_portfolio_yield data fa).line_gross_portfolio_yield = 0) ∧
    ((calculate_card_gross_portfolio_yield data fa).total_card_balance = 0 →
      (calculate_card_gross_portfolio_yield data fa).card_gross_portfolio_yield = 0) ∧
    ((calculate_card_net_portfolio_yield data fa).total_card_balance = 0 →
      (calculate_card_net_portfolio_yield data fa).card_net_portfolio_yield = 0) ∧
    (nunique_customers orders = 0 → global_ltv orders = 0) ∧
    (nunique_customers orders = 0 → estimated_cac txs orders = 0) ∧
    (estimated_cac txs orders = 0 → ltv_cac_ratio txs orders = 0) := by
  refine ⟨?_, ?_, ?_, ?_, ?_, ?_, ?_, ?_, ?_, ?_, ?_, ?_⟩
  · intro h
    simp only [calculate_monthly_metrics] at h ⊢
    simp [h]
  · intro h
    simp only [calculate_monthly_metrics] at h ⊢
    simp [h]
  · intro h
    simp only [calculate_portfolio_wide_rates] at h ⊢
    simp [h]
  · intro h
    simp only [calculate_gross_portfolio_yield] at h ⊢
    simp [h]
  · intro h
    simp only [calculate_net_portfolio_yield] at h ⊢
    simp [h]
  · intro h
    simp only [calculate_net_portfolio_yield_after_cost_of_capital,
      calculate_net_portfolio_yield] at h ⊢
    simp [h]
  · intro h
    simp only [calculate_line_gross_portfolio_yield] at h ⊢
    simp [h]
  · intro h
    simp only [calculate_card_gross_portfolio_yield] at h ⊢
    simp [h]
  · intro h
    simp only [calculate_card_net_portfolio_yield] at h ⊢
    simp [h]
  · intro h
    simp [global_ltv, h]
  · intro h
    simp [estimated_cac, h]
  · intro h
    simp [ltv_cac_ratio, h]

/-- C6 witness: on the empty datasets every denominator is 0 and the
guarded results are all 0. -/
theorem c6_zero_denominators_witness :
    (calculate_monthly_metrics []).gross_yield = 0 ∧
    (calculate_gross_portfolio_yield [] true).gross_portfolio_yield = 0 ∧
    (calculate_card_net_portfolio_yield [] true).card_net_portfolio_yield = 0 ∧
    ltv_cac_ratio [] [] = 0 := by
  have h := c6_zero_denominators [] [] true [] []
  exact ⟨h.2.1 rfl, h.2.2.2.1 rfl, h.2.2.2.2.2.2.2.2.1 rfl,
    h.2.2.2.2.2.2.2.2.2.2.2 (h.2.2.2.2.2.2.2.2.2.2.1 rfl)⟩

/-- C6 counterexample: on the empty dataset the net-yield denominator
balance is 0, yet the net portfolio yield after cost of capital -
one of the six annualized yields of the claim - is -1/10, not 0: it is
not guarded to 0 on a zero denominator, falsifying the claim as
stated. -/
theorem c6_after_coc_nonzero_counterexample :
    (calculate_net_portfolio_yield [] true).total_balance = 0 ∧
    (calculate_net_portfolio_yield_after_cost_of_capital [] true).net_portfolio_yield_after_coc
      = -(1/10) ∧
    (calculate_net_portfolio_yield_after_cost_of_capital [] true).net_portfolio_yield_after_coc
      ≠ 0 := by
  refine ⟨rfl, ?_, ?_⟩ <;>
    · simp only [calculate_net_portfolio_yield_after_cost_of_capital,
        calculate_net_portfolio_yield]
      norm_num [maskedSum, get_filtered_data]

/-- The denominator-mask balance sum equals its claim-side expression. -/
theorem denom_balance_eq (g : List LoanRecord) :
    maskedSum g denomStatuses (·.accountDailyAveragePrincipalBalance) = claim_denom_balance g := by
  unfold maskedSum claim_denom_balance
  rw [List.filter_congr (fun r _ => contains_denomStatuses r.accountEndingStatus)]

/-- The numerator-mask revenue sum (one column at a time, as the source
sums it) equals its claim-side expression (one pointwise sum). -/
theorem num_revenue_eq (g : List LoanRecord) :
    maskedSum g numStatuses (·.lineFeesAccrued)
      + maskedSum g numStatuses (·.cardNetInterchangeAccrued) = claim_num_revenue g := by
  unfold maskedSum claim_num_revenue
  rw [List.filter_congr (fun r _ => contains_numStatuses r.accountEndingStatus),
    sum_map_add_cols]

/-- C4 (amended): for every calendar-month group, the reported gross
yield is numerator revenue (line fees plus card interchange over
Current and Delinquent records) divided by denominator balance (average
daily principal balance over Current, Delinquent and Default records)
times 12 whenever that balance sum is strictly positive, and 0 whenever
it is 0 or negative (the code guards with `portfolio_size > 0`, so a
negative balance sum also yields 0); the net yield is the gross yield
minus 0.10. -/
theorem c4_monthly_gross_yield (g : List LoanRecord) :
    ((0 : ℚ) < claim_denom_balance g →
      (calculate_monthly_metrics g).gross_yield =
        claim_num_revenue g / claim_denom_balance g * 12) ∧
    (claim_denom_balance g ≤ 0 → (calculate_monthly_metrics g).gross_yield = 0) ∧
    (calculate_monthly_metrics g).portfolio_size = claim_denom_balance g ∧
    (calculate_monthly_metrics g).total_revenue = claim_num_revenue g ∧
    (calculate_monthly_metrics g).net_yield = (calculate_monthly_metrics g).gross_yield - 1/10 := by
  have hd := denom_balance_eq g
  have hn := num_revenue_eq g
  simp only [calculate_monthly_metrics, hd, hn]
  refine ⟨fun h => by rw [if_pos h], fun h => by rw [if_neg (not_lt.mpr h)],
    by trivial, by trivial, by trivial⟩

/-- A month group with one Default record of balance -100 and one
Current record with 10 of line fees. -/
def c4_group : List LoanRecord :=
  [{ mkStatusRec "Default" with accountDailyAveragePrincipalBalance := -100 },
   { mkStatusRec "Current" with lineFeesAccrued := 10 }]

/-- C4 counterexample: on a month group whose denominator balance sum
is -100 with numerator revenue 10, the claimed formula (which only
special-cases a balance sum of exactly 0) gives 10 / (-100) * 12 =
-6/5, but the code's `portfolio_size > 0` guard reports 0. -/
theorem c4_negative_denominator_counterexample :
    (calculate_monthly_metrics c4_group).gross_yield = 0 ∧
    claim_gross_yield c4_group = -6/5 ∧
    (calculate_monthly_metrics c4_group).gross_yield ≠ claim_gross_yield c4_group := by
  have hmask : maskedSum c4_group denomStatuses (·.accountDailyAveragePrincipalBalance) = -100 := by
    simp +decide [maskedSum, c4_group, mkStatusRec, List.filter]
  have hd : claim_denom_balance c4_group = -100 := by
    simp +decide [claim_denom_balance, c4_group, mkStatusRec, List.filter]
  have hn : claim_num_revenue c4_group = 10 := by
    simp +decide [claim_num_revenue, c4_group, mkStatusRec, List.filter]
  have h0 : (calculate_monthly_metrics c4_group).gross_yield = 0 := by
    simp only [calculate_monthly_metrics, hmask]
    norm_num
  have hc : claim_gross_yield c4_group = -6/5 := by
    unfold claim_gross_yield
    rw [hd, hn]
    norm_num
  exact ⟨h0, hc, by rw [h0, hc]; norm_num⟩

/-- A month group with one Current record of balance 100 and line fees
10. -/
def c4_pos_group : List LoanRecord :=
  [{ mkStatusRec "Current" with
      accountDailyAveragePrincipalBalance := 100, lineFeesAccrued := 10 }]

/-- C4 witness: on a group with balance sum 100 and revenue 10 the
gross yield is 10 / 100 * 12 = 6/5 and the net yield is 6/5 - 1/10. -/
theorem c4_monthly_gross_yield_witness :
    (calculate_monthly_metrics c4_pos_group).gross_yield = 6/5 ∧
    (calculate_monthly_metrics c4_pos_group).net_yield = 6/5 - 1/10 := by
  have hd : claim_denom_balance c4_pos_group = 100 := by
    simp +decide [claim_denom_balance, c4_pos_group, mkStatusRec, List.filter]
  have hn : claim_num_revenue c4_pos_group = 10 := by
    simp +decide [claim_num_revenue, c4_pos_group, mkStatusRec, List.filter]
  have h := c4_monthly_gross_yield c4_pos_group
  have h1 : (calculate_monthly_metrics c4_pos_group).gross_yield = 6/5 := by
    rw [h.1 (by rw [hd]; norm_num), hd, hn]
    norm_num
  exact ⟨h1, by rw [h.2.2.2.2, h1]⟩

/-- On a record with both snapshot dates present, the period length the
code computes is the claim-side period length. -/
theorem period_days_some (r : LoanRecord)
    (hb : r.snapshotBeginningAt.isSome) (he : r.snapshotEndingAt.isSome) :
    period_days r = some (claim_period_len r) := by
  obtain ⟨b, hb'⟩ := Option.isSome_iff_exists.mp hb
  obtain ⟨e, he'⟩ := Option.isSome_iff_exists.mp he
  simp [period_days, hb', he', claim_period_len]

/-- When every numerator-mask record has both snapshot dates, the
average period length the code computes (pandas mean with NaN skipping
and the `isna`/`== 0` fallback to 30) is the claim-side mean over
exactly the numerator-mask records, with 30 exactly for the empty
subset. -/
theorem avg_period_days_eq (df : List LoanRecord)
    (h : ∀ r ∈ numMaskRows df, r.snapshotBeginningAt.isSome ∧ r.snapshotEndingAt.isSome) :
    avg_period_days df = claim_avg_period_days df := by
  have hfil : df.filter (fun r => decide (r.accountEndingStatus = "Current" ∨
      r.accountEndingStatus = "Delinquent")) = numMaskRows df := by
    unfold numMaskRows
    exact (List.filter_congr (fun r _ => contains_numStatuses r.accountEndingStatus)).symm
  have hds : (numMaskRows df).filterMap period_days = (numMaskRows df).map claim_period_len := by
    rw [filterMap_eq_map_getD period_days 30 (numMaskRows df)
      (fun r hr => by rw [period_days_some r (h r hr).1 (h r hr).2]; rfl)]
    exact List.map_congr_left
      (fun r hr => by rw [period_days_some r (h r hr).1 (h r hr).2]; rfl)
  simp only [avg_period_days, claim_avg_period_days, hfil, hds]
  by_cases hemp : numMaskRows df = []
  · simp [hemp]
  · have hlen : 0 < (numMaskRows df).length := List.length_pos.mpr hemp
    have hsum : ((numMaskRows df).length : ℚ) ≤ ((numMaskRows df).map claim_period_len).sum := by
      have hb := length_le_sum_of_one_le ((numMaskRows df).map claim_period_len)
        (fun x hx => by
          obtain ⟨r, _, hrx⟩ := List.mem_map.mp hx
          rw [← hrx]
          exact le_max_left 1 _)
      simpa using hb
    have hpos : 0 < ((numMaskRows df).map claim_period_len).sum / ((numMaskRows df).length : ℚ) := by
      apply div_pos
      · exact lt_of_lt_of_le (by exact_mod_cast hlen) hsum
      · exact_mod_cast hlen
    have hne : ((numMaskRows df).map claim_period_len).sum / ((numMaskRows df).length : ℚ) ≠ 0 :=
      ne_of_gt hpos
    simp [hemp, List.length_map, hne]

/-- C5: each of the six annualized yield calculations reports the
annualization factor 365 over the mean period length of exactly the
numerator-mask records (Current, Delinquent - not the denominator
mask), each record's period length being period end minus period start
in days floored at 1, with a default period length of 30 when that
subset is empty; stated for inputs whose numerator-mask records all
have both snapshot dates (records with a missing date are skipped by
the pandas mean, which the claim's wording does not cover). -/
theorem c5_annualization_factor (data : List LoanRecord) (fa : Bool)
    (h : ∀ r ∈ numMaskRows (get_filtered_data data fa),
      r.snapshotBeginningAt.isSome ∧ r.snapshotEndingAt.isSome) :
    (calculate_gross_portfolio_yield data fa).annualization_factor
      = claim_annualization_factor (get_filtered_data data fa) ∧
    (calculate_net_portfolio_yield data fa).annualization_factor
      = claim_annualization_factor (get_filtered_data data fa) ∧
    (calculate_net_portfolio_yield_after_cost_of_capital data fa).annualization_factor
      = claim_annualization_factor (get_filtered_data data fa) ∧
    (calculate_line_gross_portfolio_yield data fa).annualization_factor
      = claim_annualization_factor (get_filtered_data data fa) ∧
    (calculate_card_gross_portfolio_yield data fa).annualization_factor
      = claim_annualization_factor (get_filtered_data data fa) ∧
    (calculate_card_net_portfolio_yield data fa).annualization_factor
      = claim_annualization_factor (get_filtered_data data fa) := by
  have ha := avg_period_days_eq (get_filtered_data data fa) h
  simp only [calculate_gross_portfolio_yield, calculate_net_portfolio_yield,
    calculate_net_portfolio_yield_after_cost_of_capital,
    calculate_line_gross_portfolio_yield, calculate_card_gross_portfolio_yield,
    calculate_card_net_portfolio_yield, claim_annualization_factor, ha]
  exact ⟨by trivial, by trivial, by trivial, by trivial, by trivial, by trivial⟩

/-- A single Current record with a 30-day period. -/
def c5_data : List LoanRecord :=
  [{ mkStatusRec "Current" with
      snapshotBeginningAt := some ⟨0, 0⟩, snapshotEndingAt := some ⟨30, 1⟩ }]

/-- C5 witness: on a dataset whose single numerator-mask record spans
exactly 30 days, the reported annualization factor equals the
claim-side factor, which is 365/30. -/
theorem c5_annualization_factor_witness :
    (calculate_gross_portfolio_yield c5_data true).annualization_factor
      = claim_annualization_factor (get_filtered_data c5_data true) ∧
    claim_annualization_factor (get_filtered_data c5_data true) = 365 / 30 := by
  have h : ∀ r ∈ numMaskRows (get_filtered_data c5_data true),
      r.snapshotBeginningAt.isSome ∧ r.snapshotEndingAt.isSome := by decide
  refine ⟨(c5_annualization_factor c5_data true h).1, ?_⟩
  simp +decide [claim_annualization_factor, claim_avg_period_days, claim_period_len,
    get_filtered_data, c5_data, mkStatusRec, List.filter]

/-- A dataset consisting of one record with a missing period end. -/
def c10_data : List LoanRecord := [mkStatusRec "Current"]

/-- C10: a record whose period-end date is missing (NaT after
preprocessing) belongs to no month group of the monthly portfolio
metrics (the month grouping drops missing keys), yet the portfolio-wide
rates computation still counts it: its account total is the full record
count and its rates divide by it; consequently the per-month account
totals need not sum to the portfolio-wide total, as the concrete
single-record dataset `c10_data` shows. -/
theorem c10_missing_period_end (data : List LoanRecord) (r : LoanRecord)
    (hr : r ∈ data) (hnone : r.snapshotEndingAt = none) :
    (∀ m : Int, r ∉ monthGroup data m) ∧
    (∀ p ∈ calculate_portfolio_metrics data, r ∉ monthGroup data p.1) ∧
    (calculate_portfolio_wide_rates data).total_accounts = data.length ∧
    (calculate_portfolio_wide_rates data).delinquency_rate
      = (statusCount data "Delinquent" : ℚ) / (data.length : ℚ) ∧
    ((calculate_portfolio_metrics c10_data).map (fun p => p.2.total_accounts)).sum
      ≠ (calculate_portfolio_wide_rates c10_data).total_accounts := by
  have hout : ∀ m : Int, r ∉ monthGroup data m := by
    intro m hmem
    have hcond := (List.mem_filter.mp hmem).2
    simp [monthKey, hnone] at hcond
  refine ⟨hout, fun p _ => hout p.1, rfl, ?_, by decide⟩
  have hlen : 0 < data.length := List.length_pos.mpr (List.ne_nil_of_mem hr)
  simp only [calculate_portfolio_wide_rates]
  rw [if_pos hlen]

/-- C10 witness: on the concrete dataset the single record is in no
month group while the portfolio-wide total counts it. -/
theorem c10_missing_period_end_witness :
    mkStatusRec "Current" ∉ monthGroup c10_data 0 ∧
    (calculate_portfolio_wide_rates c10_data).total_accounts = 1 := by
  have h := c10_missing_period_end c10_data (mkStatusRec "Current") (by decide) rfl
  exact ⟨h.1 0, h.2.2.1.trans (by rfl)⟩

/-- C9 (amended): the business-vintage aggregation of
loan_tape_metrics.py (which copies its input first) and the cohort
economics computation (which builds only fresh frames) leave their
inputs unchanged; the monthly portfolio metrics computation returns its
input's rows unchanged but, when called without a date filter, assigns
the helper column `month` on the caller's frame in place (with a
filter, the assignment lands on the filtered copy and the input is
untouched); the legacy metrics.py business aggregation likewise assigns
the helper columns `vintage_month` and `account_age_months` on its
input in place. -/
theorem c9_engine_frame_effects (f : LoanFrame) (g : OrdersFrame) (sd ed : Option Int) :
    (calculate_portfolio_metrics_run f sd ed).1.rows = f.rows ∧
    (sd = none → ed = none →
      (calculate_portfolio_metrics_run f sd ed).1.cols = insertCol "month" f.cols) ∧
    (sd.isSome ∨ ed.isSome → (calculate_portfolio_metrics_run f sd ed).1 = f) ∧
    (calculate_business_metrics_run f).1 = f ∧
    (calculate_cohort_metrics_run g).1 = g ∧
    (metrics_business_effect f).rows = f.rows ∧
    (metrics_business_effect f).cols
      = insertCol "account_age_months" (insertCol "vintage_month" f.cols) := by
  cases sd <;> cases ed <;>
    simp [calculate_portfolio_metrics_run, calculate_business_metrics_run,
      calculate_cohort_metrics_run, metrics_business_effect]

/-- A loan frame without a `month` column. -/
def c9_frame : LoanFrame := { rows := [], cols := ["snapshotEndingAt"] }

/-- C9 counterexample: calling the monthly portfolio metrics
computation without a date filter changes the caller's frame - it gains
the `month` column. -/
theorem c9_portfolio_metrics_mutates_input :
    (calculate_portfolio_metrics_run c9_frame none none).1 ≠ c9_frame := by decide

/-- C9 witness: on a concrete frame the no-filter call adds the `month`
column while the business aggregation returns the frame unchanged. -/
theorem c9_engine_frame_effects_witness :
    (calculate_portfolio_metrics_run c9_frame none none).1.cols = insertCol "month" c9_frame.cols ∧
    (calculate_business_metrics_run c9_frame).1 = c9_frame := by
  have h := c9_engine_frame_effects c9_frame { rows := [], cols := [] } none none
  exact ⟨h.2.1 rfl rfl, h.2.2.2.1⟩

/-- Under the hypothesis that every order has a creation timestamp,
every customer of the dataset has a cohort month. -/
theorem cohort_month_isSome (orders : List Order)
    (h : ∀ o ∈ orders, (o.created_at).isSome)
    (c : String) (hc : c ∈ customers orders) : (cohort_month orders c).isSome := by
  obtain ⟨o, ho, hoc⟩ := List.mem_map.mp (List.mem_dedup.mp hc)
  have hmem : o ∈ custOrders orders c := by
    unfold custOrders
    exact List.mem_filter.mpr ⟨ho, by simp [hoc]⟩
  obtain ⟨d, hd⟩ := Option.isSome_iff_exists.mp (h o ho)
  have hdm : d ∈ (custOrders orders c).filterMap (·.created_at) :=
    List.mem_filterMap.mpr ⟨o, hmem, hd⟩
  unfold cohort_month first_order_date
  cases hl : (custOrders orders c).filterMap (·.created_at) with
  | nil => rw [hl] at hdm; exact absurd hdm (List.not_mem_nil d)
  | cons a as => simp

/-- C8 (amended): provided every order has a parseable creation
timestamp, the cohort partition is exact: the sum over all cohorts of
the cohort total net revenue is the dataset's total net revenue, and
the sum of the cohort customer counts is the number of distinct
customers - each customer lands in exactly one cohort, the calendar
month of their earliest order.  (A customer all of whose orders lack a
parseable timestamp is dropped from every cohort by the month grouping,
which is what the unrestricted claim misses.) -/
theorem c8_cohort_sums (orders : List Order) (h : ∀ o ∈ orders, (o.created_at).isSome) :
    ((calculate_cohort_metrics orders).map (·.total_revenue)).sum = total_net_revenue orders ∧
    ((calculate_cohort_metrics orders).map (·.customer_count)).sum = nunique_customers orders := by
  have hexK : ∀ c ∈ customers orders,
      ∃ m, m ∈ cohortKeys orders ∧ (cohort_month orders c == some m) = true := by
    intro c hc
    obtain ⟨m, hm⟩ := Option.isSome_iff_exists.mp (cohort_month_isSome orders h c hc)
    refine ⟨m, ?_, by simp [hm]⟩
    unfold cohortKeys
    exact List.mem_dedup.mpr (List.mem_filterMap.mpr ⟨c, hc, hm⟩)
  have huniqK : ∀ c ∈ customers orders, ∀ m m' : Int,
      (cohort_month orders c == some m) = true →
      (cohort_month orders c == some m') = true → m = m' := by
    intro c _ m m' h1 h2
    exact Option.some_inj.mp ((eq_of_beq h1).symm.trans (eq_of_beq h2))
  have hexC : ∀ o ∈ orders, ∃ c, c ∈ customers orders ∧ (o.customer == c) = true := by
    intro o ho
    exact ⟨o.customer, List.mem_dedup.mpr (List.mem_map.mpr ⟨o, ho, rfl⟩), by simp⟩
  have huniqC : ∀ o ∈ orders, ∀ c c' : String,
      (o.customer == c) = true → (o.customer == c') = true → c = c' := by
    intro o _ c c' h1 h2
    exact (eq_of_beq h1).symm.trans (eq_of_beq h2)
  constructor
  · have hrows : (calculate_cohort_metrics orders).map (·.total_revenue)
        = (cohortKeys orders).map
            (fun m => ((cohortCustomers orders m).map (customer_total_spent orders)).sum) := by
      simp only [calculate_cohort_metrics, List.map_map]
      rfl
    have hrev := sum_fiber (cohortKeys orders) (List.nodup_dedup _)
      (fun m c => cohort_month orders c == some m) (customer_total_spent orders)
      (customers orders) hexK huniqK
    have hord := sum_fiber (customers orders) (List.nodup_dedup _)
      (fun c o => o.customer == c) Order.net_revenue orders hexC huniqC
    rw [hrows]
    calc ((cohortKeys orders).map
            (fun m => ((cohortCustomers orders m).map (customer_total_spent orders)).sum)).sum
        = ((customers orders).map (customer_total_spent orders)).sum := hrev
      _ = (orders.map Order.net_revenue).sum := hord
      _ = total_net_revenue orders := rfl
  · have hrows : (calculate_cohort_metrics orders).map (·.customer_count)
        = (cohortKeys orders).map (fun m => (cohortCustomers orders m).length) := by
      simp only [calculate_cohort_metrics, List.map_map]
      rfl
    have hcnt := sum_fiber (cohortKeys orders) (List.nodup_dedup _)
      (fun m c => cohort_month orders c == some m) (fun _ => (1 : ℕ))
      (customers orders) hexK huniqK
    rw [hrows]
    calc ((cohortKeys orders).map (fun m => (cohortCustomers orders m).length)).sum
        = ((cohortKeys orders).map
            (fun m => ((cohortCustomers orders m).map (fun _ => (1 : ℕ))).sum)).sum := by
          apply congrArg List.sum
          exact List.map_congr_left (fun m _ => (sum_map_one (cohortCustomers orders m)).symm)
      _ = ((customers orders).map (fun _ => (1 : ℕ))).sum := hcnt
      _ = (customers orders).length := sum_map_one (customers orders)
      _ = nunique_customers orders := rfl

/-- Three dated orders: two of customer `a` (first order in month 0),
one of customer `b` (month 1). -/
def c8_orders : List Order :=
  [{ order_id := "o1", customer := "a", created_at := some ⟨0, 0⟩,
     gross_amount := 100, refunds := 0, discounts := 0, net_revenue := 100 },
   { order_id := "o2", customer := "a", created_at := some ⟨40, 1⟩,
     gross_amount := 50, refunds := 0, discounts := 0, net_revenue := 50 },
   { order_id := "o3", customer := "b", created_at := some ⟨40, 1⟩,
     gross_amount := 30, refunds := 0, discounts := 0, net_revenue := 30 }] 

/-- C8 witness: on a concrete fully-dated dataset the cohort revenue
and customer-count sums match the dataset totals. -/
theorem c8_cohort_sums_witness :
    ((calculate_cohort_metrics c8_orders).map (·.total_revenue)).sum
      = total_net_revenue c8_orders ∧
    ((calculate_cohort_metrics c8_orders).map (·.customer_count)).sum
      = nunique_customers c8_orders :=
  c8_cohort_sums c8_orders (by decide)

/-- One order with net revenue 100 whose creation timestamp is
missing. -/
def c8_bad_orders : List Order :=
  [{ order_id := "o1", customer := "a", created_at := none,
     gross_amount := 100, refunds := 0, discounts := 0, net_revenue := 100 }]

/-- C8 counterexample: a customer all of whose orders lack a parseable
creation timestamp is dropped by the cohort grouping, so on a dataset
with one undated order of net revenue 100 the cohorts sum to 0 revenue
and 0 customers while the dataset total is 100 with 1 distinct
customer. -/
theorem c8_missing_date_counterexample :
    ((calculate_cohort_metrics c8_bad_orders).map (·.total_revenue)).sum
      ≠ total_net_revenue c8_bad_orders ∧
    ((calculate_cohort_metrics c8_bad_orders).map (·.customer_count)).sum
      ≠ nunique_customers c8_bad_orders := by
  have h1 : calculate_cohort_metrics c8_bad_orders = [] := by decide
  constructor
  · rw [h1]
    simp [total_net_revenue, c8_bad_orders]
  · rw [h1]
    simp [nunique_customers, customers, c8_bad_orders]
